import Mathlib

/-
Formal model of the simulation core of the flappy-bird clone in this
repository (variants `main1.py` and `mian.py`).  Python floats are embedded
as rationals, Python ints as `Nat`/`Int`.  `random.randint` results and the
transcendental `math.sin` values are passed in as explicit oracle arguments,
so every definition stays executable.  Python's truncating `int(...)`
conversion on a float is `pyInt`, Python's `//` on non-negative ints is `Nat`
division.
-/

namespace Flappy

/-- Python `int(q)` on a float: truncation toward zero.  On a reduced
rational this is T-division of the numerator by the denominator. -/
def pyInt (q : ℚ) : ℤ :=
  q.num.tdiv q.den

/-- The session phase, `self.state` in both variants. -/
inductive Phase where
  | WELCOME
  | PLAYING
  | GAME_OVER
deriving DecidableEq, Repr

/-- `pygame.Rect`: integer left/top corner plus width and height. -/
structure Rect where
  x : ℤ
  y : ℤ
  w : ℤ
  h : ℤ
deriving DecidableEq, Repr

/-- `pygame.Rect.colliderect`: strict overlap on both axes, exactly the C
test `A.x < B.x + B.w and A.y < B.y + B.h and A.x + A.w > B.x and
A.y + A.h > B.y`. -/
def Rect.colliderect (a b : Rect) : Bool :=
  decide (a.x < b.x + b.w) && decide (a.y < b.y + b.h) &&
  decide (a.x + a.w > b.x) && decide (a.y + a.h > b.y)

/-- `PipePair` as in both `main1.py` and `mian.py` (identical fields; the
sprite surfaces are represented by their pixel dimensions `img_w`/`img_h`).
`speed` is set to `150.0` by both constructors. -/
structure PipePair where
  img_w : ℕ
  img_h : ℕ
  x : ℚ
  gap_y : ℤ
  gap_size : ℕ
  bottom_y : ℤ
  speed : ℚ
  passed : Bool
deriving DecidableEq, Repr

/-- `PipePair.width` property: the pipe sprite's width. -/
def PipePair.width (p : PipePair) : ℕ := p.img_w

/-- `PipePair.update`: `self.x -= self.speed * dt`. -/
def PipePair.update (p : PipePair) (dt : ℚ) : PipePair :=
  { p with x := p.x - p.speed * dt }

/-- `PipePair.rects` of `main1.py`: top and bottom collision rectangles,
each shrunk in place by `inflate_ip(-4, 0)` (left moves right by 2, width
shrinks by 4, matching pygame's centered inflation with C division). -/
def PipePair.rects1 (p : PipePair) : Rect × Rect :=
  let top_height : ℤ := p.gap_y - (p.gap_size / 2 : ℕ)
  let bottom_top : ℤ := p.gap_y + (p.gap_size / 2 : ℕ)
  let top_rect : Rect := { x := pyInt p.x + 2, y := top_height - p.img_h, w := (p.img_w : ℤ) - 4, h := p.img_h }
  let bottom_rect : Rect := { x := pyInt p.x + 2, y := bottom_top, w := (p.img_w : ℤ) - 4, h := p.img_h }
  (top_rect, bottom_rect)

/-- The `Bird` of `main1.py`.  The frame list is represented by its length
and the (shared) frame pixel dimensions. -/
structure Bird1 where
  frames_len : ℕ
  img_w : ℕ
  img_h : ℕ
  animation_index : ℕ
  animation_timer : ℚ
  animation_interval : ℚ
  position_x : ℚ
  position_y : ℚ
  velocity_y : ℚ
  rotation : ℚ
  dead : Bool
  max_fall_speed : ℚ
  wobble_amplitude : ℚ
  wobble_timer : ℚ
deriving DecidableEq, Repr

/-- `Bird.rect` of `main1.py`: the sprite rectangle shrunk by
`inflate_ip(-8, -8)` (left/top move by 4, width/height shrink by 8). -/
def Bird1.rect (b : Bird1) : Rect :=
  { x := pyInt b.position_x + 4, y := pyInt b.position_y + 4,
    w := (b.img_w : ℤ) - 8, h := (b.img_h : ℤ) - 8 }

/-- `Bird.update` of `main1.py`.  `sinv` is the oracle value of
`math.sin(self.wobble_timer * 3)` after the timer increment; it feeds only
the idle (`is_playing = false`) branch. -/
def Bird1.update (b : Bird1) (dt gravity rotation_speed : ℚ)
    (is_playing : Bool) (sinv : ℚ) : Bird1 :=
  let b1 :=
    if b.dead then { b with animation_index := 1 }
    else
      let t := b.animation_timer + dt
      if b.animation_interval ≤ t then
        { b with animation_timer := 0,
                 animation_index := (b.animation_index + 1) % b.frames_len }
      else { b with animation_timer := t }
  if is_playing then
    let v := min (b1.velocity_y + gravity * dt) b1.max_fall_speed
    let y := b1.position_y + v * dt
    let target := min 25 (max (-90) (-v * (5/2)))
    let rot := b1.rotation + (target - b1.rotation) * min 1 (rotation_speed * dt)
    { b1 with velocity_y := v, position_y := y, rotation := rot }
  else
    let w := b1.wobble_timer + dt
    { b1 with wobble_timer := w,
              position_y := b1.position_y + b1.wobble_amplitude * sinv * dt * 20,
              rotation := 0 }

/-- `Bird.flap` of `main1.py`: `if not self.dead: self.velocity_y = -impulse`. -/
def Bird1.flap (b : Bird1) (impulse : ℚ) : Bird1 :=
  if b.dead then b else { b with velocity_y := -impulse }

/-- The `Bird` of `mian.py` (no wobble fields; terminal velocity is an
update argument there, not a field). -/
structure BirdM where
  frames_len : ℕ
  img_w : ℕ
  img_h : ℕ
  animation_index : ℕ
  animation_timer : ℚ
  animation_interval : ℚ
  position_x : ℚ
  position_y : ℚ
  velocity_y : ℚ
  rotation : ℚ
  dead : Bool
deriving DecidableEq, Repr

/-- `Bird.rect` of `mian.py`: the plain sprite rectangle, no inflation. -/
def BirdM.rect (b : BirdM) : Rect :=
  { x := pyInt b.position_x, y := pyInt b.position_y,
    w := (b.img_w : ℤ), h := (b.img_h : ℤ) }

/-- `Bird.update` of `mian.py`: animation advance (frozen at frame 1 when
dead), clamped gravity integration, and snap-up/decay-down rotation. -/
def BirdM.update (b : BirdM) (dt gravity max_fall_speed rot_down_speed : ℚ) : BirdM :=
  let b1 :=
    if b.dead then { b with animation_index := 1 }
    else
      let t := b.animation_timer + dt
      if b.animation_interval ≤ t then
        { b with animation_timer := 0,
                 animation_index := (b.animation_index + 1) % b.frames_len }
      else { b with animation_timer := t }
  let v := min (b1.velocity_y + gravity * dt) max_fall_speed
  let y := b1.position_y + v * dt
  let rot :=
    if v < 0 then (45 : ℚ)
    else if -90 < b1.rotation then max (-90) (b1.rotation - rot_down_speed * dt)
    else b1.rotation
  { b1 with velocity_y := v, position_y := y, rotation := rot }

/-- `Bird.flap` of `mian.py`: sets the velocity and also snaps the rotation
to 45 degrees; no-op when dead. -/
def BirdM.flap (b : BirdM) (impulse : ℚ) : BirdM :=
  if b.dead then b else { b with velocity_y := -impulse, rotation := 45 }

/-- The `Game` of `main1.py`, restricted to the simulation state (sprite,
sound and display handles carry no simulation content and are represented
by the pixel dimensions the simulation reads from them). -/
structure Game1 where
  screen_width : ℕ
  screen_height : ℕ
  base_y : ℤ
  base_img_w : ℕ
  base_x : ℚ
  base_speed : ℚ
  pipe_img_w : ℕ
  pipe_img_h : ℕ
  pipes : List PipePair
  pipe_spawn_timer : ℚ
  pipe_spawn_interval : ℚ
  pipe_gap : ℕ
  bird_frames_len : ℕ
  bird_img_w : ℕ
  bird_img_h : ℕ
  bird : Bird1
  gravity : ℚ
  rotation_speed : ℚ
  flap_impulse : ℚ
  state : Phase
  score : ℕ
  high_score : ℕ
  base_pipe_gap : ℕ
  min_pipe_gap : ℕ
  gap_decrease_rate : ℕ
deriving DecidableEq, Repr

/-- The gap size `spawn_pipe` of `main1.py` computes for a given score:
`max(self.min_pipe_gap, self.base_pipe_gap - (score // self.gap_decrease_rate) * 5)`.
(The Python value of the subtraction can be negative; since
`min_pipe_gap ≥ 0` the outer `max` then picks `min_pipe_gap` in both the
Python and the truncated-`Nat` reading, so the two agree.) -/
def Game1.gapAt (g : Game1) (score : ℕ) : ℕ :=
  max g.min_pipe_gap (g.base_pipe_gap - score / g.gap_decrease_rate * 5)

/-- `current_gap` in `spawn_pipe` of `main1.py`, at the current score. -/
def Game1.current_gap (g : Game1) : ℕ := g.gapAt g.score

/-- `min_center` in `spawn_pipe` of `main1.py`:
`int(self.screen_height * 0.25) + current_gap // 2` (for a non-negative
height, `int(h * 0.25)` is `h / 4` in `Nat` division). -/
def Game1.minCenterAt (g : Game1) (score : ℕ) : ℕ :=
  g.screen_height / 4 + g.gapAt score / 2

/-- `max_center` in `spawn_pipe` of `main1.py`:
`int(self.base_y - 20 - current_gap // 2)`. -/
def Game1.maxCenterAt (g : Game1) (score : ℕ) : ℤ :=
  g.base_y - 20 - (g.gapAt score / 2 : ℕ)

/-- `min_center` at the current score. -/
def Game1.min_center (g : Game1) : ℕ := g.minCenterAt g.score

/-- `max_center` at the current score. -/
def Game1.max_center (g : Game1) : ℤ := g.maxCenterAt g.score

/-- `spawn_pipe` of `main1.py` with the `random.randint(min_center,
max_center)` draw passed in as the oracle `gap_center`: appends a new
`PipePair` at `x = screen_width + 10` with the difficulty-scaled gap. -/
def Game1.spawn_pipe (g : Game1) (gap_center : ℤ) : Game1 :=
  { g with pipes := g.pipes ++
      [{ img_w := g.pipe_img_w, img_h := g.pipe_img_h,
         x := (g.screen_width : ℚ) + 10, gap_y := gap_center,
         gap_size := g.current_gap, bottom_y := g.base_y,
         speed := 150, passed := false }] }

/-- `update_base` of `main1.py`: scroll the ground strip and wrap. -/
def Game1.update_base (g : Game1) (dt : ℚ) : Game1 :=
  let bx := g.base_x - g.base_speed * dt
  if bx ≤ -((g.base_img_w : ℚ) - g.screen_width) then { g with base_x := 0 }
  else { g with base_x := bx }

/-- `check_collisions` of `main1.py`: ground (`bird_rect.bottom >= base_y - 5`),
ceiling (`bird_rect.top <= 0`), then rect-vs-rect tests against every pipe. -/
def Game1.check_collisions (g : Game1) : Bool :=
  let br := g.bird.rect
  if br.y + br.h ≥ g.base_y - 5 then true
  else if br.y ≤ 0 then true
  else g.pipes.any fun p =>
    br.colliderect p.rects1.1 || br.colliderect p.rects1.2

/-- The crossing test of `update_score` in `main1.py`:
`pipe.x + pipe.width < self.bird.position_x`. -/
def crossed1 (birdX : ℚ) (p : PipePair) : Bool :=
  !p.passed && decide (p.x + (p.width : ℚ) < birdX)

/-- How many pipes in the list `update_score` of `main1.py` would score on
this call: not yet flagged and already past the bird's x. -/
def countNew (birdX : ℚ) (ps : List PipePair) : ℕ :=
  (ps.filter (crossed1 birdX)).length

/-- The loop body of `update_score` in `main1.py`, threading the pipe list,
score and high score left to right (the `_save_high_score` call is file
I/O with no influence on the session state). -/
def updateScoreAux (birdX : ℚ) : List PipePair → ℕ → ℕ → List PipePair × ℕ × ℕ
  | [], s, h => ([], s, h)
  | p :: ps, s, h =>
    if p.passed = false ∧ p.x + (p.width : ℚ) < birdX then
      let s1 := s + 1
      let h1 := if h < s1 then s1 else h
      let r := updateScoreAux birdX ps s1 h1
      ({ p with passed := true } :: r.1, r.2.1, r.2.2)
    else
      let r := updateScoreAux birdX ps s h
      (p :: r.1, r.2.1, r.2.2)

/-- `update_score` of `main1.py` on the game state. -/
def Game1.update_score (g : Game1) : Game1 :=
  let r := updateScoreAux g.bird.position_x g.pipes g.score g.high_score
  { g with pipes := r.1, score := r.2.1, high_score := r.2.2 }

/-- A fresh `Bird` as `main1.py` constructs it at `(screen_width // 4,
screen_height // 2)`. -/
def Game1.freshBird (g : Game1) : Bird1 :=
  { frames_len := g.bird_frames_len, img_w := g.bird_img_w, img_h := g.bird_img_h,
    animation_index := 0, animation_timer := 0, animation_interval := 8/100,
    position_x := (g.screen_width / 4 : ℕ), position_y := (g.screen_height / 2 : ℕ),
    velocity_y := 0, rotation := 0, dead := false, max_fall_speed := 400,
    wobble_amplitude := 3, wobble_timer := 0 }

/-- `reset` of `main1.py` (the background/pipe-colour re-rolls touch only
render assets): clears the pipes, zeroes score and timers, replaces the
bird, returns to WELCOME and restores the base difficulty gap. -/
def Game1.reset (g : Game1) : Game1 :=
  { g with base_x := 0, pipes := [], pipe_spawn_timer := 0,
           bird := g.freshBird, score := 0, state := Phase.WELCOME,
           pipe_gap := g.base_pipe_gap }

/-- `handle_input` of `main1.py` for a flap/confirm event (space, up-arrow
or left mouse button; both event branches run identical code). -/
def Game1.handle_flap (g : Game1) : Game1 :=
  if g.state = Phase.WELCOME then
    { g with state := Phase.PLAYING, bird := g.bird.flap g.flap_impulse }
  else if g.state = Phase.PLAYING then
    { g with bird := g.bird.flap g.flap_impulse }
  else g.reset

/-- The part of the PLAYING branch of `Game.run` in `main1.py` that runs
before the collision check: ground scroll, bird physics, spawn timer (with
the `randint` draw as oracle `c`), pipe movement and pruning
(`p.x + p.width > -50`). -/
def Game1.advancePhase (g : Game1) (dt : ℚ) (c : ℤ) : Game1 :=
  let g1 := (g.update_base dt)
  let g2 := { g1 with bird := g1.bird.update dt g1.gravity g1.rotation_speed true 0 }
  let g3 :=
    let t := g2.pipe_spawn_timer + dt
    if g2.pipe_spawn_interval ≤ t then Game1.spawn_pipe { g2 with pipe_spawn_timer := 0 } c
    else { g2 with pipe_spawn_timer := t }
  let moved := (g3.pipes.map (PipePair.update · dt)).filter (fun p => decide (p.x + (p.width : ℚ) > -50))
  { g3 with pipes := moved }

/-- The collision response of `Game.run` in `main1.py`: switch to
GAME_OVER and mark the bird dead (the `hit` sound is render-side). -/
def Game1.afterCollision (g : Game1) : Game1 :=
  { g with state := Phase.GAME_OVER, bird := { g.bird with dead := true } }

/-- One PLAYING-state tick of `Game.run` in `main1.py`: advance, then on
collision switch to GAME_OVER and mark the bird dead, then — still in the
same tick — run `update_score`. -/
def Game1.playingTick (g : Game1) (dt : ℚ) (c : ℤ) : Game1 :=
  let g1 := g.advancePhase dt c
  let g2 := if g1.check_collisions then g1.afterCollision else g1
  g2.update_score

/-- The `Game` of `mian.py`, restricted to the simulation state. -/
structure GameM where
  screen_width : ℕ
  screen_height : ℕ
  base_y : ℤ
  base_img_w : ℕ
  base_x : ℚ
  base_speed : ℚ
  pipe_img_w : ℕ
  pipe_img_h : ℕ
  pipes : List PipePair
  pipe_spawn_timer : ℚ
  pipe_spawn_interval : ℚ
  pipe_gap : ℕ
  bird_frames_len : ℕ
  bird_img_w : ℕ
  bird_img_h : ℕ
  bird : BirdM
  gravity : ℚ
  max_fall_speed : ℚ
  rot_down_speed : ℚ
  flap_impulse : ℚ
  state : Phase
  score : ℕ
  high_score : ℕ
deriving DecidableEq, Repr

/-- `min_center` in `spawn_pipe` of `mian.py`:
`int(self.screen_height * 0.25) + self.pipe_gap // 2`. -/
def GameM.min_center (g : GameM) : ℕ :=
  g.screen_height / 4 + g.pipe_gap / 2

/-- `max_center` in `spawn_pipe` of `mian.py`:
`int(self.base_y - 10 - self.pipe_gap // 2)`. -/
def GameM.max_center (g : GameM) : ℤ :=
  g.base_y - 10 - (g.pipe_gap / 2 : ℕ)

/-- The gap center `spawn_pipe` of `mian.py` settles on:
`max(min_center, min(max_center, base_center + bias))`, where
`base_center` is the `randint` draw and `bias` the truncated
`int(20 * math.sin(t * 1.3))` wall-clock term, both passed as oracles. -/
def GameM.spawnCenter (g : GameM) (base_center bias : ℤ) : ℤ :=
  max (g.min_center : ℤ) (min g.max_center (base_center + bias))

/-- `spawn_pipe` of `mian.py`: appends a `PipePair` at `x = screen_width + 10`
with the fixed `pipe_gap` and the clamped biased center. -/
def GameM.spawn_pipe (g : GameM) (base_center bias : ℤ) : GameM :=
  { g with pipes := g.pipes ++
      [{ img_w := g.pipe_img_w, img_h := g.pipe_img_h,
         x := (g.screen_width : ℚ) + 10, gap_y := g.spawnCenter base_center bias,
         gap_size := g.pipe_gap, bottom_y := g.base_y,
         speed := 150, passed := false }] }

/-- The crossing test of `update_score` in `mian.py`:
`pipe.x + pipe.width < self.bird.rect().left`, the rect left edge being
`int(self.bird.position_x)`. -/
def crossedM (birdLeft : ℤ) (p : PipePair) : Bool :=
  !p.passed && decide (p.x + (p.width : ℚ) < (birdLeft : ℚ))

/-- The loop body of `update_score` in `mian.py`: same crossing walk, with
`self.high_score = max(self.high_score, self.score)` after an increment. -/
def updateScoreAuxM (birdLeft : ℤ) : List PipePair → ℕ → ℕ → List PipePair × ℕ × ℕ
  | [], s, h => ([], s, h)
  | p :: ps, s, h =>
    if p.passed = false ∧ p.x + (p.width : ℚ) < (birdLeft : ℚ) then
      let s1 := s + 1
      let h1 := max h s1
      let r := updateScoreAuxM birdLeft ps s1 h1
      ({ p with passed := true } :: r.1, r.2.1, r.2.2)
    else
      let r := updateScoreAuxM birdLeft ps s h
      (p :: r.1, r.2.1, r.2.2)

/-- `update_score` of `mian.py` on the game state. -/
def GameM.update_score (g : GameM) : GameM :=
  let r := updateScoreAuxM (pyInt g.bird.position_x) g.pipes g.score g.high_score
  { g with pipes := r.1, score := r.2.1, high_score := r.2.2 }

/-- A fresh `Bird` as `mian.py` constructs it at `(screen_width // 6,
screen_height // 2)`. -/
def GameM.freshBird (g : GameM) : BirdM :=
  { frames_len := g.bird_frames_len, img_w := g.bird_img_w, img_h := g.bird_img_h,
    animation_index := 0, animation_timer := 0, animation_interval := 8/100,
    position_x := (g.screen_width / 6 : ℕ), position_y := (g.screen_height / 2 : ℕ),
    velocity_y := 0, rotation := 0, dead := false }

/-- `reset` of `mian.py`. -/
def GameM.reset (g : GameM) : GameM :=
  { g with base_x := 0, pipes := [], pipe_spawn_timer := 0,
           bird := g.freshBird, score := 0, state := Phase.WELCOME }

/-- `handle_input` of `mian.py` for a flap/confirm event.  In the WELCOME
state it only switches to PLAYING (and plays a sound); unlike `main1.py`
it does not flap the bird. -/
def GameM.handle_flap (g : GameM) : GameM :=
  if g.state = Phase.WELCOME then
    { g with state := Phase.PLAYING }
  else if g.state = Phase.PLAYING then
    { g with bird := g.bird.flap g.flap_impulse }
  else g.reset

/-- `update_base` of `mian.py`: scroll the ground strip and wrap. -/
def GameM.update_base (g : GameM) (dt : ℚ) : GameM :=
  let bx := g.base_x - g.base_speed * dt
  if bx ≤ -((g.base_img_w : ℚ) - g.screen_width) then { g with base_x := 0 }
  else { g with base_x := bx }

/-- `check_collisions` of `mian.py`: the early ground return
(`bird_rect.bottom >= self.base_y`, no inflation) is exact; the remaining
per-pipe pixel-mask overlap loop reads sprite opacity bitmaps that are not
part of the simulation state, so its boolean outcome is supplied as the
oracle `maskHit` (like the `randint` and `math.sin` draws elsewhere). -/
def GameM.check_collisions (g : GameM) (maskHit : Bool) : Bool :=
  let br := g.bird.rect
  if br.y + br.h ≥ g.base_y then true
  else maskHit

/-- The collision response of `Game.run` in `mian.py`: switch to
GAME_OVER and mark the bird dead (the `hit` sound is render-side). -/
def GameM.afterCollision (g : GameM) : GameM :=
  { g with state := Phase.GAME_OVER, bird := { g.bird with dead := true } }

/-- The part of the PLAYING work of `Game.run` in `mian.py` that runs
before the collision check: ground scroll, bird physics, spawn timer (with
the `randint` and sine-bias draws as oracles), pipe movement and pruning
(`p.x + p.width > -10`). -/
def GameM.advancePhase (g : GameM) (dt : ℚ) (base_center bias : ℤ) : GameM :=
  let g1 := g.update_base dt
  let g2 := { g1 with bird := g1.bird.update dt g1.gravity g1.max_fall_speed g1.rot_down_speed }
  let g3 :=
    let t := g2.pipe_spawn_timer + dt
    if g2.pipe_spawn_interval ≤ t then
      GameM.spawn_pipe { g2 with pipe_spawn_timer := 0 } base_center bias
    else { g2 with pipe_spawn_timer := t }
  let moved := (g3.pipes.map (PipePair.update · dt)).filter (fun p => decide (p.x + (p.width : ℚ) > -10))
  { g3 with pipes := moved }

/-- One PLAYING-state tick of `Game.run` in `mian.py`: advance, then on
collision switch to GAME_OVER and mark the bird dead, then — still in the
same tick — run `update_score`. -/
def GameM.playingTick (g : GameM) (dt : ℚ) (base_center bias : ℤ) (maskHit : Bool) : GameM :=
  let g1 := g.advancePhase dt base_center bias
  let g2 := if g1.check_collisions maskHit then g1.afterCollision else g1
  g2.update_score

/-
The high-score store of `main1.py`: `_save_high_score` writes
`str(self.high_score)` to `highscore.txt`, `_load_high_score` reads the
file and returns `int(contents.strip())`, or `0` on any failure.  The file
content is embedded as a `List Char`, a missing/unreadable file as `none`.
-/

/-- ASCII whitespace as stripped by Python's `str.strip`: space, tab,
newline, vertical tab, form feed, carriage return. -/
def isPySpace (c : Char) : Bool :=
  c.toNat = 32 || c.toNat = 9 || c.toNat = 10 || c.toNat = 11 || c.toNat = 12 || c.toNat = 13

/-- A decimal digit character, as accepted by Python's `int`. -/
def isPyDigit (c : Char) : Bool :=
  48 ≤ c.toNat && c.toNat ≤ 57

/-- The numeric value of a digit character. -/
def digitVal (c : Char) : ℕ := c.toNat - 48

/-- `str.strip()`: drop leading and trailing whitespace. -/
def pyStrip (cs : List Char) : List Char :=
  ((cs.dropWhile isPySpace).reverse.dropWhile isPySpace).reverse

/-- Decimal digits accumulated left to right. -/
def foldDigits (acc : ℕ) (cs : List Char) : ℕ :=
  cs.foldl (fun a c => a * 10 + digitVal c) acc

/-- Python's `int(str)` on an already-stripped string: an optional sign
followed by a non-empty run of decimal digits; anything else raises (here:
`none`). -/
def parseIntChars (cs : List Char) : Option ℤ :=
  if hne : cs = [] then none
  else if cs.head hne = Char.ofNat 45 then
    let rest := cs.tail
    if rest ≠ [] ∧ rest.all isPyDigit then some (-(foldDigits 0 rest : ℤ)) else none
  else if cs.head hne = Char.ofNat 43 then
    let rest := cs.tail
    if rest ≠ [] ∧ rest.all isPyDigit then some (foldDigits 0 rest : ℤ) else none
  else if cs.all isPyDigit then some (foldDigits 0 cs : ℤ)
  else none

/-- `str(n)` for a non-negative integer: its decimal digit characters. -/
def natToChars (n : ℕ) : List Char :=
  if n < 10 then [Char.ofNat (48 + n)]
  else natToChars (n / 10) ++ [Char.ofNat (48 + n % 10)]
decreasing_by exact Nat.div_lt_self (by omega) (by omega)

/-- `_save_high_score` of `main1.py`: the file content it writes. -/
def saveHighScore (best : ℕ) : List Char := natToChars best

/-- `_load_high_score` of `main1.py`: strip and parse the file content,
falling back to `0` when the file is missing or the parse raises. -/
def loadHighScore (file : Option (List Char)) : ℤ :=
  match file with
  | none => 0
  | some cs =>
    match parseIntChars (pyStrip cs) with
    | some v => v
    | none => 0

/-- Marking map describing one `update_score` pass of `main1.py` on a
single pipe: the `passed` flag absorbs the crossing test. -/
def markCrossed (birdX : ℚ) (p : PipePair) : PipePair :=
  { p with passed := p.passed || decide (p.x + (p.width : ℚ) < birdX) }

/-- How many pipes would score on one `update_score` call of `mian.py`. -/
def countNewM (birdLeft : ℤ) (ps : List PipePair) : ℕ :=
  (ps.filter (crossedM birdLeft)).length

/-- `10 ^ (number of decimal digits)`, by the same recursion as
`natToChars`. -/
def tenPow (n : ℕ) : ℕ :=
  if n < 10 then 10
  else tenPow (n / 10) * 10
decreasing_by exact Nat.div_lt_self (by omega) (by omega)

/-
Concrete sample states, with the constants the two variants construct
(288x512 screen, 336x112 ground strip, 34x24 bird frames, 52x320 pipe
sprites).
-/

/-- A live `main1.py` bird at its start position. -/
def sampleBird1 : Bird1 :=
  { frames_len := 3, img_w := 34, img_h := 24, animation_index := 0,
    animation_timer := 0, animation_interval := 8/100, position_x := 72,
    position_y := 256, velocity_y := 0, rotation := 0, dead := false,
    max_fall_speed := 400, wobble_amplitude := 3, wobble_timer := 0 }

/-- A dead `main1.py` bird. -/
def sampleDeadBird1 : Bird1 :=
  { sampleBird1 with dead := true, animation_index := 1 }

/-- A live `mian.py` bird at its start position. -/
def sampleBirdM : BirdM :=
  { frames_len := 3, img_w := 34, img_h := 24, animation_index := 0,
    animation_timer := 0, animation_interval := 8/100, position_x := 48,
    position_y := 256, velocity_y := 0, rotation := 0, dead := false }

/-- A pipe already past a bird standing at x = 72, not yet flagged. -/
def samplePipeA : PipePair :=
  { img_w := 52, img_h := 320, x := 10, gap_y := 250, gap_size := 140,
    bottom_y := 400, speed := 150, passed := false }

/-- A second pipe already past a bird standing at x = 72, not yet flagged. -/
def samplePipeB : PipePair :=
  { samplePipeA with x := 5 }

/-- A pipe whose point has already been awarded. -/
def samplePassedPipe : PipePair :=
  { samplePipeA with passed := true }

/-- A fresh `main1.py` session on the welcome screen. -/
def sampleGame1 : Game1 :=
  { screen_width := 288, screen_height := 512, base_y := 400,
    base_img_w := 336, base_x := 0, base_speed := 150,
    pipe_img_w := 52, pipe_img_h := 320, pipes := [],
    pipe_spawn_timer := 0, pipe_spawn_interval := 9/5, pipe_gap := 140,
    bird_frames_len := 3, bird_img_w := 34, bird_img_h := 24,
    bird := sampleBird1, gravity := 700, rotation_speed := 8,
    flap_impulse := 280, state := Phase.WELCOME, score := 0,
    high_score := 0, base_pipe_gap := 140, min_pipe_gap := 100,
    gap_decrease_rate := 2 }

/-- A fresh `mian.py` session on the welcome screen. -/
def sampleGameM : GameM :=
  { screen_width := 288, screen_height := 512, base_y := 400,
    base_img_w := 336, base_x := 0, base_speed := 150,
    pipe_img_w := 52, pipe_img_h := 320, pipes := [],
    pipe_spawn_timer := 0, pipe_spawn_interval := 5/4, pipe_gap := 100,
    bird_frames_len := 3, bird_img_w := 34, bird_img_h := 24,
    bird := sampleBirdM, gravity := 1800, max_fall_speed := 600,
    rot_down_speed := 250, flap_impulse := 350, state := Phase.WELCOME,
    score := 0, high_score := 0 }

/-- A mid-flight `main1.py` session in ground contact this tick, with an
unflagged pipe already past the bird and not yet scored. -/
def sampleCollideGame : Game1 :=
  { sampleGame1 with
    state := Phase.PLAYING,
    bird := { sampleBird1 with position_y := 380 },
    pipes := [{ samplePipeA with x := 15 }] }

/-- A mid-flight `mian.py` session in ground contact this tick, with an
unflagged pipe already past the bird and not yet scored. -/
def sampleCollideGameM : GameM :=
  { sampleGameM with
    state := Phase.PLAYING,
    bird := { sampleBirdM with position_y := 380 },
    pipes := [{ samplePipeA with x := -5 }] }

/-
Lemmas about the score pass.
-/

lemma crossed1_false_of_not (x : ℚ) (p : PipePair)
    (hc : ¬(p.passed = false ∧ p.x + (p.width : ℚ) < x)) : crossed1 x p = false := by
  cases hp : p.passed
  · have hlt : ¬(p.x + (p.width : ℚ) < x) := fun hlt => hc ⟨hp, hlt⟩
    simp [crossed1, hp, hlt]
  · simp [crossed1, hp]

lemma updateScoreAux_score (x : ℚ) :
    ∀ (ps : List PipePair) (s h : ℕ), (updateScoreAux x ps s h).2.1 = s + countNew x ps := by
  intro ps
  induction ps with
  | nil => intro s h; simp [updateScoreAux, countNew]
  | cons p ps ih =>
    intro s h
    by_cases hc : p.passed = false ∧ p.x + (p.width : ℚ) < x
    · simp only [updateScoreAux, if_pos hc, ih]
      have hcr : crossed1 x p = true := by simp [crossed1, hc.1, hc.2]
      simp [countNew, List.filter_cons, hcr]
      omega
    · simp only [updateScoreAux, if_neg hc, ih]
      simp [countNew, List.filter_cons, crossed1_false_of_not x p hc]

lemma updateScoreAux_pipes (x : ℚ) :
    ∀ (ps : List PipePair) (s h : ℕ), (updateScoreAux x ps s h).1 = ps.map (markCrossed x) := by
  intro ps
  induction ps with
  | nil => intro s h; simp [updateScoreAux]
  | cons p ps ih =>
    intro s h
    by_cases hc : p.passed = false ∧ p.x + (p.width : ℚ) < x
    · simp only [updateScoreAux, if_pos hc, List.map_cons]
      refine congrArg₂ List.cons ?_ (ih _ _)
      simp [markCrossed, hc.1, hc.2]
    · simp only [updateScoreAux, if_neg hc, List.map_cons]
      refine congrArg₂ List.cons ?_ (ih _ _)
      cases hp : p.passed
      · have hlt : ¬(p.x + (p.width : ℚ) < x) := fun hlt => hc ⟨hp, hlt⟩
        cases p
        simp_all [markCrossed]
      · cases p
        simp_all [markCrossed]

lemma updateScoreAux_score_ge (x : ℚ) (ps : List PipePair) (s h : ℕ) :
    s ≤ (updateScoreAux x ps s h).2.1 := by
  rw [updateScoreAux_score]
  omega

lemma updateScoreAux_high (x : ℚ) :
    ∀ (ps : List PipePair) (s h : ℕ), s ≤ h →
      (updateScoreAux x ps s h).2.2 = max h (updateScoreAux x ps s h).2.1 := by
  intro ps
  induction ps with
  | nil => intro s h hsh; simp [updateScoreAux]; omega
  | cons p ps ih =>
    intro s h hsh
    by_cases hc : p.passed = false ∧ p.x + (p.width : ℚ) < x
    · simp only [updateScoreAux, if_pos hc]
      by_cases hh : h < s + 1
      · rw [if_pos hh]
        have hge := updateScoreAux_score_ge x ps (s + 1) (s + 1)
        have := ih (s + 1) (s + 1) le_rfl
        omega
      · rw [if_neg hh]
        have hge := updateScoreAux_score_ge x ps (s + 1) h
        have := ih (s + 1) h (by omega)
        omega
    · simp only [updateScoreAux, if_neg hc]
      exact ih s h hsh

lemma updateScoreAuxM_score_ge (bl : ℤ) :
    ∀ (ps : List PipePair) (s h : ℕ), s ≤ (updateScoreAuxM bl ps s h).2.1 := by
  intro ps
  induction ps with
  | nil => intro s h; simp [updateScoreAuxM]
  | cons p ps ih =>
    intro s h
    by_cases hc : p.passed = false ∧ p.x + (p.width : ℚ) < (bl : ℚ)
    · simp only [updateScoreAuxM, if_pos hc]
      have := ih (s + 1) (max h (s + 1))
      omega
    · simp only [updateScoreAuxM, if_neg hc]
      exact ih s h

lemma updateScoreAuxM_high (bl : ℤ) :
    ∀ (ps : List PipePair) (s h : ℕ), s ≤ h →
      (updateScoreAuxM bl ps s h).2.1 ≤ (updateScoreAuxM bl ps s h).2.2 := by
  intro ps
  induction ps with
  | nil => intro s h hsh; simpa [updateScoreAuxM]
  | cons p ps ih =>
    intro s h hsh
    by_cases hc : p.passed = false ∧ p.x + (p.width : ℚ) < (bl : ℚ)
    · simp only [updateScoreAuxM, if_pos hc]
      exact ih (s + 1) (max h (s + 1)) (le_max_right _ _)
    · simp only [updateScoreAuxM, if_neg hc]
      exact ih s h hsh

lemma crossedM_false_of_not (bl : ℤ) (p : PipePair)
    (hc : ¬(p.passed = false ∧ p.x + (p.width : ℚ) < (bl : ℚ))) : crossedM bl p = false := by
  cases hp : p.passed
  · have hlt : ¬(p.x + (p.width : ℚ) < (bl : ℚ)) := fun hlt => hc ⟨hp, hlt⟩
    simp [crossedM, hp, hlt]
  · simp [crossedM, hp]

lemma updateScoreAuxM_score (bl : ℤ) :
    ∀ (ps : List PipePair) (s h : ℕ), (updateScoreAuxM bl ps s h).2.1 = s + countNewM bl ps := by
  intro ps
  induction ps with
  | nil => intro s h; simp [updateScoreAuxM, countNewM]
  | cons p ps ih =>
    intro s h
    by_cases hc : p.passed = false ∧ p.x + (p.width : ℚ) < (bl : ℚ)
    · simp only [updateScoreAuxM, if_pos hc, ih]
      have hcr : crossedM bl p = true := by simp [crossedM, hc.1, hc.2]
      simp [countNewM, List.filter_cons, hcr]
      omega
    · simp only [updateScoreAuxM, if_neg hc, ih]
      simp [countNewM, List.filter_cons, crossedM_false_of_not bl p hc]

lemma updateScoreAuxM_high_eq (bl : ℤ) :
    ∀ (ps : List PipePair) (s h : ℕ), s ≤ h →
      (updateScoreAuxM bl ps s h).2.2 = max h (updateScoreAuxM bl ps s h).2.1 := by
  intro ps
  induction ps with
  | nil => intro s h hsh; simp [updateScoreAuxM]; omega
  | cons p ps ih =>
    intro s h hsh
    by_cases hc : p.passed = false ∧ p.x + (p.width : ℚ) < (bl : ℚ)
    · simp only [updateScoreAuxM, if_pos hc]
      have hge := updateScoreAuxM_score_ge bl ps (s + 1) (max h (s + 1))
      have := ih (s + 1) (max h (s + 1)) (le_max_right _ _)
      omega
    · simp only [updateScoreAuxM, if_neg hc]
      exact ih s h hsh

lemma pipeUpdate_passed (p : PipePair) (dts : List ℚ) :
    (dts.foldl PipePair.update p).passed = p.passed := by
  induction dts generalizing p with
  | nil => rfl
  | cons d dts ih => simpa [PipePair.update] using ih { p with x := p.x - p.speed * d }

/-- C1.  `update_score` of `main1.py` awards exactly one point per pipe
whose right edge is past the bird's x and whose `passed` flag is still
clear (so two such pipes in one tick award exactly two points), sets the
flag on exactly those pipes, leaves every other pipe untouched, and a pipe
whose flag is set contributes nothing on any later call — the flag is
preserved by every later movement step, for any dt sequence. -/
theorem c1_update_score :
    (∀ g : Game1, (g.update_score).score = g.score + countNew g.bird.position_x g.pipes)
    ∧ (∀ (x : ℚ) (ps : List PipePair) (s h : ℕ),
      (updateScoreAux x ps s h).2.1 = s + countNew x ps)
    ∧ (∀ (x : ℚ) (ps : List PipePair) (s h : ℕ),
      (updateScoreAux x ps s h).1 = ps.map (markCrossed x))
    ∧ (∀ p : PipePair, p.passed = true →
      ∀ dts : List ℚ, (dts.foldl PipePair.update p).passed = true)
    ∧ (∀ (x : ℚ) (p : PipePair) (qs : List PipePair), p.passed = true →
      countNew x (p :: qs) = countNew x qs) := by
  refine ⟨fun g => updateScoreAux_score _ _ _ _,
          fun x ps s h => updateScoreAux_score x ps s h,
          fun x ps s h => updateScoreAux_pipes x ps s h, ?_, ?_⟩
  · intro p hp dts
    rw [pipeUpdate_passed]
    exact hp
  · intro x p qs hp
    simp [countNew, List.filter_cons, crossed1, hp]

/-- C1 witness: two unflagged pipes past the bird score two points in one
call; a flagged pipe keeps its flag through movement and contributes
nothing. -/
theorem c1_update_score_witness :
    (updateScoreAux 72 [samplePipeA, samplePipeB] 0 0).2.1
        = 0 + countNew 72 [samplePipeA, samplePipeB]
    ∧ countNew 72 [samplePipeA, samplePipeB] = 2
    ∧ ([(1 : ℚ)/10, 2/10].foldl PipePair.update samplePassedPipe).passed = true
    ∧ countNew 72 [samplePassedPipe] = countNew 72 [] :=
  ⟨c1_update_score.2.1 72 [samplePipeA, samplePipeB] 0 0,
   by norm_num [countNew, crossed1, samplePipeA, samplePipeB, PipePair.width, List.filter],
   c1_update_score.2.2.2.1 samplePassedPipe (by decide) [(1 : ℚ)/10, 2/10],
   c1_update_score.2.2.2.2 72 samplePassedPipe [] (by decide)⟩

/-- C6.  In both variants one `update_score` call keeps `best ≥ current`:
starting from any score/high-score pair with `current ≤ best`, the pair
after the call still satisfies it. -/
theorem c6_best_ge_current :
    (∀ g : Game1, g.score ≤ g.high_score →
      (g.update_score).score ≤ (g.update_score).high_score)
    ∧ (∀ g : GameM, g.score ≤ g.high_score →
      (g.update_score).score ≤ (g.update_score).high_score) := by
  constructor
  · intro g hsh
    show (updateScoreAux g.bird.position_x g.pipes g.score g.high_score).2.1
        ≤ (updateScoreAux g.bird.position_x g.pipes g.score g.high_score).2.2
    rw [updateScoreAux_high _ _ _ _ hsh]
    exact le_max_right _ _
  · intro g hsh
    exact updateScoreAuxM_high _ _ _ _ hsh

/-- C6 witness: the invariant holds after a call that scores a pipe, in
both variants' fresh sessions with one pipe past the bird. -/
theorem c6_best_ge_current_witness :
    (sampleCollideGame.update_score).score ≤ (sampleCollideGame.update_score).high_score
    ∧ (sampleGameM.update_score).score ≤ (sampleGameM.update_score).high_score :=
  ⟨c6_best_ge_current.1 sampleCollideGame (by decide),
   c6_best_ge_current.2 sampleGameM (by decide)⟩

/-- C3.  In both variants, the velocity after one playing-mode integration
step never exceeds the terminal fall speed, whatever the previous state,
the dt, the gravity (including the 1.5x death gravity) and any flap that
came before: the integration ends in an unconditional clamp. -/
theorem c3_terminal_velocity :
    (∀ (b : Bird1) (dt gravity rotation_speed sinv : ℚ),
      (b.update dt gravity rotation_speed true sinv).velocity_y ≤ b.max_fall_speed)
    ∧ (∀ (b : BirdM) (dt gravity max_fall rot_down : ℚ),
      (b.update dt gravity max_fall rot_down).velocity_y ≤ max_fall) := by
  constructor
  · intro b dt g rs sv
    by_cases hd : b.dead
    · simp [Bird1.update, hd, min_le_right]
    · by_cases ht : b.animation_interval ≤ b.animation_timer + dt
      · simp [Bird1.update, hd, ht, min_le_right]
      · simp [Bird1.update, hd, ht, min_le_right]
  · intro b dt g mf rd
    by_cases hd : b.dead
    · simp [BirdM.update, hd, min_le_right]
    · by_cases ht : b.animation_interval ≤ b.animation_timer + dt
      · simp [BirdM.update, hd, ht, min_le_right]
      · simp [BirdM.update, hd, ht, min_le_right]

/-- C4 counterexample.  In `mian.py`, `flap` on a live bird does not leave
the rest of the state unchanged: it also snaps `rotation` to 45 degrees. -/
theorem c4_counterexample :
    (sampleBirdM.flap 350).rotation ≠ sampleBirdM.rotation := by
  norm_num [BirdM.flap, sampleBirdM]

/-- C4 as amended: in `main1.py` a live flap sets only `velocity_y = -m`;
in `mian.py` it sets `velocity_y = -m` and `rotation = 45`; in both
variants a dead bird's flap is a complete no-op. -/
theorem c4_flap_amended :
    (∀ (b : Bird1) (m : ℚ), b.dead = false → b.flap m = { b with velocity_y := -m })
    ∧ (∀ (b : Bird1) (m : ℚ), b.dead = true → b.flap m = b)
    ∧ (∀ (b : BirdM) (m : ℚ), b.dead = false →
        b.flap m = { b with velocity_y := -m, rotation := 45 })
    ∧ (∀ (b : BirdM) (m : ℚ), b.dead = true → b.flap m = b) := by
  refine ⟨?_, ?_, ?_, ?_⟩ <;> intro b m h <;> simp [Bird1.flap, BirdM.flap, h]

/-- C4 witness: the amended flap effect at the two start birds. -/
theorem c4_flap_amended_witness :
    sampleBird1.flap 280 = { sampleBird1 with velocity_y := -280 }
    ∧ sampleBirdM.flap 350 = { sampleBirdM with velocity_y := -350, rotation := 45 } :=
  ⟨c4_flap_amended.1 sampleBird1 280 rfl,
   c4_flap_amended.2.2.1 sampleBirdM 350 rfl⟩

/-- C5 counterexample.  In `mian.py`, the WELCOME -> PLAYING transition on
a flap input applies no impulse: the bird's velocity stays 0 instead of
becoming `-flap_impulse`. -/
theorem c5_counterexample :
    (sampleGameM.handle_flap).state = Phase.PLAYING
    ∧ (sampleGameM.handle_flap).bird.velocity_y = 0
    ∧ (0 : ℚ) ≠ -sampleGameM.flap_impulse := by
  refine ⟨by simp [GameM.handle_flap, sampleGameM], by simp [GameM.handle_flap, sampleGameM, sampleBirdM], ?_⟩
  norm_num [sampleGameM]

/-- C5 as amended: a flap input in WELCOME switches to PLAYING in both
variants; `main1.py` also applies the initial impulse
(`velocity_y = -flap_impulse`), while `mian.py` leaves the bird state
entirely unchanged. -/
theorem c5_welcome_amended :
    (∀ g : Game1, g.state = Phase.WELCOME → g.bird.dead = false →
      (g.handle_flap).state = Phase.PLAYING
      ∧ (g.handle_flap).bird.velocity_y = -g.flap_impulse)
    ∧ (∀ g : GameM, g.state = Phase.WELCOME →
      (g.handle_flap).state = Phase.PLAYING ∧ (g.handle_flap).bird = g.bird) := by
  constructor
  · intro g hs hd
    constructor
    · simp [Game1.handle_flap, hs]
    · simp [Game1.handle_flap, hs, Bird1.flap, hd]
  · intro g hs
    constructor
    · simp [GameM.handle_flap, hs]
    · simp [GameM.handle_flap, hs]

/-- C5 witness: the amended transition at the two fresh welcome sessions. -/
theorem c5_welcome_amended_witness :
    (sampleGame1.handle_flap).state = Phase.PLAYING
    ∧ (sampleGame1.handle_flap).bird.velocity_y = -sampleGame1.flap_impulse
    ∧ (sampleGameM.handle_flap).state = Phase.PLAYING
    ∧ (sampleGameM.handle_flap).bird = sampleGameM.bird :=
  ⟨(c5_welcome_amended.1 sampleGame1 rfl rfl).1,
   (c5_welcome_amended.1 sampleGame1 rfl rfl).2,
   (c5_welcome_amended.2 sampleGameM rfl).1,
   (c5_welcome_amended.2 sampleGameM rfl).2⟩

/-- C8 counterexample.  A dead bird's frame index does not cycle through
two phases: with `dt` equal to the full animation interval, the index is
pinned to 1 on every update — in particular two successive updates leave
it equal, where a two-phase cycle would alternate it. -/
theorem c8_counterexample :
    (sampleDeadBird1.update (8/100) 700 8 true 0).animation_index = 1
    ∧ ((sampleDeadBird1.update (8/100) 700 8 true 0).update (8/100) 700 8 true 0).animation_index
        = (sampleDeadBird1.update (8/100) 700 8 true 0).animation_index := by
  constructor
  · simp [Bird1.update, sampleDeadBird1, sampleBird1]
  · simp [Bird1.update, sampleDeadBird1, sampleBird1]

/-- C8 as amended: when the bird is alive the index cycles through the
`frames_len` (= 3 in both variants) phases each time the accumulated timer
reaches the interval, and holds otherwise; when the bird is dead the index
is pinned to frame 1 and does not cycle at all, in both variants. -/
theorem c8_animation_amended :
    (∀ (b : Bird1) (dt g rs sv : ℚ) (p : Bool), b.dead = true →
      (b.update dt g rs p sv).animation_index = 1)
    ∧ (∀ (b : Bird1) (dt g rs sv : ℚ) (p : Bool), b.dead = false →
      b.animation_interval ≤ b.animation_timer + dt →
      (b.update dt g rs p sv).animation_index = (b.animation_index + 1) % b.frames_len)
    ∧ (∀ (b : Bird1) (dt g rs sv : ℚ) (p : Bool), b.dead = false →
      b.animation_timer + dt < b.animation_interval →
      (b.update dt g rs p sv).animation_index = b.animation_index)
    ∧ (∀ (b : BirdM) (dt g mf rd : ℚ), b.dead = true →
      (b.update dt g mf rd).animation_index = 1)
    ∧ (∀ (b : BirdM) (dt g mf rd : ℚ), b.dead = false →
      b.animation_interval ≤ b.animation_timer + dt →
      (b.update dt g mf rd).animation_index = (b.animation_index + 1) % b.frames_len)
    ∧ (∀ (b : BirdM) (dt g mf rd : ℚ), b.dead = false →
      b.animation_timer + dt < b.animation_interval →
      (b.update dt g mf rd).animation_index = b.animation_index) := by
  refine ⟨?_, ?_, ?_, ?_, ?_, ?_⟩
  · intro b dt g rs sv p hd
    cases p <;> simp [Bird1.update, hd]
  · intro b dt g rs sv p hd ht
    cases p <;> simp [Bird1.update, hd, ht]
  · intro b dt g rs sv p hd ht
    have hle : ¬(b.animation_interval ≤ b.animation_timer + dt) := not_le.mpr ht
    cases p <;> simp [Bird1.update, hd, hle]
  · intro b dt g mf rd hd
    simp [BirdM.update, hd]
  · intro b dt g mf rd hd ht
    simp [BirdM.update, hd, ht]
  · intro b dt g mf rd hd ht
    have hle : ¬(b.animation_interval ≤ b.animation_timer + dt) := not_le.mpr ht
    simp [BirdM.update, hd, hle]

/-- C8 witness: a live bird one full interval in advances from frame 0 to
frame 1 of 3; a dead bird stays pinned to frame 1. -/
theorem c8_animation_amended_witness :
    (sampleBird1.update (8/100) 700 8 true 0).animation_index
        = (sampleBird1.animation_index + 1) % sampleBird1.frames_len
    ∧ (sampleDeadBird1.update (8/100) 700 8 true 0).animation_index = 1 :=
  ⟨c8_animation_amended.2.1 sampleBird1 (8/100) 700 8 0 true rfl
     (by norm_num [sampleBird1]),
   c8_animation_amended.1 sampleDeadBird1 (8/100) 700 8 0 true rfl⟩

/-- C2.  Whatever the score, `spawn_pipe` of `main1.py` keeps
`gapSize ≥ min_pipe_gap`, and any center the `randint(min_center,
max_center)` draw can return places the full gap inside
`[screen_height/4, base_y - 20]`; in `mian.py` the clamped biased center
likewise keeps the fixed gap inside `[screen_height/4, base_y - 10]`
whenever the draw interval is non-empty. -/
theorem c2_spawn_gap :
    (∀ (g : Game1) (c : ℤ), (g.min_center : ℤ) ≤ c → c ≤ g.max_center →
      g.current_gap = max g.min_pipe_gap (g.base_pipe_gap - g.score / g.gap_decrease_rate * 5)
      ∧ g.min_pipe_gap ≤ g.current_gap
      ∧ ((g.screen_height / 4 : ℕ) : ℤ) ≤ c - ((g.current_gap / 2 : ℕ) : ℤ)
      ∧ c + ((g.current_gap / 2 : ℕ) : ℤ) ≤ g.base_y - 20)
    ∧ (∀ (g : GameM) (b bias : ℤ), (g.min_center : ℤ) ≤ g.max_center →
      ((g.screen_height / 4 : ℕ) : ℤ)
          ≤ g.spawnCenter b bias - ((g.pipe_gap / 2 : ℕ) : ℤ)
      ∧ g.spawnCenter b bias + ((g.pipe_gap / 2 : ℕ) : ℤ) ≤ g.base_y - 10) := by
  constructor
  · intro g c hmin hmax
    simp only [Game1.min_center, Game1.minCenterAt, Game1.max_center,
      Game1.maxCenterAt, Game1.current_gap, Game1.gapAt] at hmin hmax ⊢
    refine ⟨trivial, Nat.le_max_left _ _, ?_, ?_⟩ <;> push_cast at hmin hmax ⊢ <;> omega
  · intro g b bias hrange
    simp only [GameM.min_center, GameM.max_center, GameM.spawnCenter] at hrange ⊢
    push_cast at hrange ⊢
    omega

/-- C2 witness: a spawn of each variant at the real screen geometry
(288x512 screen, ground at 400), center draw 250 resp. 200 with bias -15. -/
theorem c2_spawn_gap_witness :
    (sampleGame1.current_gap
        = max sampleGame1.min_pipe_gap
            (sampleGame1.base_pipe_gap - sampleGame1.score / sampleGame1.gap_decrease_rate * 5)
      ∧ sampleGame1.min_pipe_gap ≤ sampleGame1.current_gap
      ∧ ((sampleGame1.screen_height / 4 : ℕ) : ℤ)
          ≤ 250 - ((sampleGame1.current_gap / 2 : ℕ) : ℤ)
      ∧ (250 : ℤ) + ((sampleGame1.current_gap / 2 : ℕ) : ℤ) ≤ sampleGame1.base_y - 20)
    ∧ (((sampleGameM.screen_height / 4 : ℕ) : ℤ)
          ≤ sampleGameM.spawnCenter 200 (-15) - ((sampleGameM.pipe_gap / 2 : ℕ) : ℤ)
      ∧ sampleGameM.spawnCenter 200 (-15) + ((sampleGameM.pipe_gap / 2 : ℕ) : ℤ)
          ≤ sampleGameM.base_y - 10) :=
  ⟨c2_spawn_gap.1 sampleGame1 250 (by decide) (by decide),
   c2_spawn_gap.2 sampleGameM 200 (-15) (by decide)⟩

/-- C10.  In `main1.py`, with `min_pipe_gap ≤ base_pipe_gap` (as
configured: 100 ≤ 140), `spawn_pipe`'s `randint` interval is non-empty for
every score exactly when the playfield satisfies it at the widest (base)
gap: `screen_height/4 + base_gap/2 ≤ base_y - 20 - base_gap/2`.  Under
that precondition `min_center ≤ max_center` for every reachable score, so
the `randint` error branch is unreachable; without it the draw already
fails at score 0.  In `mian.py`, whose gap never varies with the score,
the `randint` interval is non-empty — at every reachable score — exactly
when the playfield satisfies
`screen_height/4 + gap/2 ≤ base_y - 10 - gap/2`. -/
theorem c10_spawn_safe :
    (∀ (g : Game1), g.min_pipe_gap ≤ g.base_pipe_gap →
      ((((g.screen_height / 4 : ℕ) : ℤ) + ((g.base_pipe_gap / 2 : ℕ) : ℤ)
          ≤ g.base_y - 20 - ((g.base_pipe_gap / 2 : ℕ) : ℤ)) →
        ∀ s : ℕ, (g.minCenterAt s : ℤ) ≤ g.maxCenterAt s)
      ∧ (¬(((g.screen_height / 4 : ℕ) : ℤ) + ((g.base_pipe_gap / 2 : ℕ) : ℤ)
          ≤ g.base_y - 20 - ((g.base_pipe_gap / 2 : ℕ) : ℤ)) →
        g.maxCenterAt 0 < (g.minCenterAt 0 : ℤ)))
    ∧ (∀ (g : GameM),
      (((g.screen_height / 4 : ℕ) : ℤ) + ((g.pipe_gap / 2 : ℕ) : ℤ)
          ≤ g.base_y - 10 - ((g.pipe_gap / 2 : ℕ) : ℤ))
        ↔ (g.min_center : ℤ) ≤ g.max_center) := by
  constructor
  · intro g hmb
    constructor
    · intro hpre s
      have hgap : g.gapAt s ≤ g.base_pipe_gap := by
        simp only [Game1.gapAt]
        omega
      have hdiv : g.gapAt s / 2 ≤ g.base_pipe_gap / 2 := Nat.div_le_div_right hgap
      simp only [Game1.minCenterAt, Game1.maxCenterAt]
      push_cast
      omega
    · intro hpre
      have h0 : g.gapAt 0 = g.base_pipe_gap := by
        simp only [Game1.gapAt, Nat.zero_div, Nat.zero_mul]
        omega
      simp only [Game1.minCenterAt, Game1.maxCenterAt, h0]
      push_cast at hpre ⊢
      omega
  · intro g
    simp only [GameM.min_center, GameM.max_center]
    push_cast
    omega

/-- C10 witness: at the real geometry `main1.py`'s precondition holds
(128 + 70 ≤ 310) and the draw interval at score 7 is non-empty, and
`mian.py`'s playfield inequality (128 + 50 ≤ 340) yields its non-empty
draw interval. -/
theorem c10_spawn_safe_witness :
    (sampleGame1.minCenterAt 7 : ℤ) ≤ sampleGame1.maxCenterAt 7
    ∧ (sampleGameM.min_center : ℤ) ≤ sampleGameM.max_center :=
  ⟨(c10_spawn_safe.1 sampleGame1 (by decide)).1 (by decide) 7,
   (c10_spawn_safe.2 sampleGameM).mp (by decide)⟩

/-
Lemmas for the tick ordering claim.
-/

lemma update_score_state (g : Game1) : (g.update_score).state = g.state := rfl

lemma update_score_bird (g : Game1) : (g.update_score).bird = g.bird := rfl

lemma advancePhase_score (g : Game1) (dt : ℚ) (c : ℤ) :
    (g.advancePhase dt c).score = g.score := by
  simp only [Game1.advancePhase, Game1.update_base, Game1.spawn_pipe]
  split <;> split <;> rfl

lemma advancePhase_high (g : Game1) (dt : ℚ) (c : ℤ) :
    (g.advancePhase dt c).high_score = g.high_score := by
  simp only [Game1.advancePhase, Game1.update_base, Game1.spawn_pipe]
  split <;> split <;> rfl

lemma advancePhaseM_score (g : GameM) (dt : ℚ) (bc bias : ℤ) :
    (g.advancePhase dt bc bias).score = g.score := by
  simp only [GameM.advancePhase, GameM.update_base, GameM.spawn_pipe]
  split <;> split <;> rfl

lemma advancePhaseM_high (g : GameM) (dt : ℚ) (bc bias : ℤ) :
    (g.advancePhase dt bc bias).high_score = g.high_score := by
  simp only [GameM.advancePhase, GameM.update_base, GameM.spawn_pipe]
  split <;> split <;> rfl

/-- C9.  On a colliding PLAYING tick of either variant's `Game.run`, the
transition to GAME_OVER and the kill flag land first, and `update_score`
still runs in the same tick: the score still grows by one per unflagged
pipe whose right edge is past the bird, and the high score is raised to
the new score when it exceeds the old high score. -/
theorem c9_postmortem_score :
    (∀ (g : Game1) (dt : ℚ) (c : ℤ),
      (g.advancePhase dt c).check_collisions = true →
      g.score ≤ g.high_score →
      (g.playingTick dt c).state = Phase.GAME_OVER
      ∧ (g.playingTick dt c).bird.dead = true
      ∧ (g.playingTick dt c).score
          = g.score + countNew (g.advancePhase dt c).bird.position_x (g.advancePhase dt c).pipes
      ∧ (g.playingTick dt c).high_score = max g.high_score ((g.playingTick dt c).score))
    ∧ (∀ (g : GameM) (dt : ℚ) (bc bias : ℤ) (maskHit : Bool),
      (g.advancePhase dt bc bias).check_collisions maskHit = true →
      g.score ≤ g.high_score →
      (g.playingTick dt bc bias maskHit).state = Phase.GAME_OVER
      ∧ (g.playingTick dt bc bias maskHit).bird.dead = true
      ∧ (g.playingTick dt bc bias maskHit).score
          = g.score + countNewM (pyInt (g.advancePhase dt bc bias).bird.position_x)
              (g.advancePhase dt bc bias).pipes
      ∧ (g.playingTick dt bc bias maskHit).high_score
          = max g.high_score ((g.playingTick dt bc bias maskHit).score)) := by
  constructor
  · intro g dt c hcol hbest
    have hstep : g.playingTick dt c = ((g.advancePhase dt c).afterCollision).update_score := by
      simp only [Game1.playingTick, hcol, if_true]
    rw [hstep]
    simp only [Game1.update_score, Game1.afterCollision]
    refine ⟨trivial, trivial, ?_, ?_⟩
    · rw [updateScoreAux_score, advancePhase_score]
    · rw [updateScoreAux_high _ _ _ _
          (by rw [advancePhase_score, advancePhase_high]; exact hbest),
        advancePhase_high]
  · intro g dt bc bias maskHit hcol hbest
    have hstep : g.playingTick dt bc bias maskHit
        = ((g.advancePhase dt bc bias).afterCollision).update_score := by
      simp only [GameM.playingTick, hcol, if_true]
    rw [hstep]
    simp only [GameM.update_score, GameM.afterCollision]
    refine ⟨trivial, trivial, ?_, ?_⟩
    · rw [updateScoreAuxM_score, advancePhaseM_score]
    · rw [updateScoreAuxM_high_eq _ _ _ _
          (by rw [advancePhaseM_score, advancePhaseM_high]; exact hbest),
        advancePhaseM_high]

/-- C9 witness: in each variant, a session in ground contact with an
unflagged pipe past the bird ends the tick in GAME_OVER with a dead bird,
scores the pipe, and raises the high score. -/
theorem c9_postmortem_score_witness :
    ((sampleCollideGame.playingTick 0 0).state = Phase.GAME_OVER
    ∧ (sampleCollideGame.playingTick 0 0).bird.dead = true
    ∧ (sampleCollideGame.playingTick 0 0).score
        = sampleCollideGame.score
          + countNew (sampleCollideGame.advancePhase 0 0).bird.position_x
              (sampleCollideGame.advancePhase 0 0).pipes
    ∧ (sampleCollideGame.playingTick 0 0).high_score
        = max sampleCollideGame.high_score ((sampleCollideGame.playingTick 0 0).score))
    ∧ ((sampleCollideGameM.playingTick 0 0 0 false).state = Phase.GAME_OVER
    ∧ (sampleCollideGameM.playingTick 0 0 0 false).bird.dead = true
    ∧ (sampleCollideGameM.playingTick 0 0 0 false).score
        = sampleCollideGameM.score
          + countNewM (pyInt (sampleCollideGameM.advancePhase 0 0 0).bird.position_x)
              (sampleCollideGameM.advancePhase 0 0 0).pipes
    ∧ (sampleCollideGameM.playingTick 0 0 0 false).high_score
        = max sampleCollideGameM.high_score
            ((sampleCollideGameM.playingTick 0 0 0 false).score)) :=
  ⟨c9_postmortem_score.1 sampleCollideGame 0 0
    (by norm_num [Game1.advancePhase, Game1.update_base, Game1.spawn_pipe, Bird1.update,
      PipePair.update, Game1.check_collisions, Bird1.rect, Rect.colliderect,
      PipePair.rects1, pyInt, sampleCollideGame, sampleGame1, sampleBird1, samplePipeA,
      PipePair.width, min_def, max_def, List.filter])
    (by decide),
   c9_postmortem_score.2 sampleCollideGameM 0 0 0 false
    (by norm_num [GameM.advancePhase, GameM.update_base, GameM.spawn_pipe, BirdM.update,
      PipePair.update, GameM.check_collisions, BirdM.rect, pyInt,
      sampleCollideGameM, sampleGameM, sampleBirdM, samplePipeA,
      PipePair.width, min_def, max_def, List.filter])
    (by decide)⟩

/-
Lemmas for the high-score store round trip.
-/

lemma digit_toNat (d : ℕ) (hd : d < 10) : (Char.ofNat (48 + d)).toNat = 48 + d := by
  interval_cases d <;> rfl

lemma isPyDigit_ofNat (d : ℕ) (hd : d < 10) : isPyDigit (Char.ofNat (48 + d)) = true := by
  interval_cases d <;> rfl

lemma digitVal_ofNat (d : ℕ) (hd : d < 10) : digitVal (Char.ofNat (48 + d)) = d := by
  rw [digitVal, digit_toNat d hd]
  omega

lemma isPyDigit_bounds (c : Char) (h : isPyDigit c = true) :
    48 ≤ c.toNat ∧ c.toNat ≤ 57 := by
  simpa [isPyDigit] using h

lemma isPyDigit_not_space (c : Char) (h : isPyDigit c = true) : isPySpace c = false := by
  obtain ⟨h1, h2⟩ := isPyDigit_bounds c h
  simp [isPySpace]
  omega

lemma isPyDigit_ne_minus (c : Char) (h : isPyDigit c = true) : c ≠ Char.ofNat 45 := by
  intro heq
  rw [heq] at h
  exact absurd h (by decide)

lemma isPyDigit_ne_plus (c : Char) (h : isPyDigit c = true) : c ≠ Char.ofNat 43 := by
  intro heq
  rw [heq] at h
  exact absurd h (by decide)

lemma natToChars_ne_nil (n : ℕ) : natToChars n ≠ [] := by
  rw [natToChars]
  split
  · simp
  · simp

lemma natToChars_all (n : ℕ) : (natToChars n).all isPyDigit = true := by
  induction n using Nat.strong_induction_on with
  | _ n ih =>
    rw [natToChars]
    split
    · next hlt => simp [isPyDigit_ofNat n hlt]
    · next hge =>
      have h1 := ih (n / 10) (Nat.div_lt_self (by omega) (by omega))
      simp [List.all_append, h1, isPyDigit_ofNat (n % 10) (Nat.mod_lt n (by omega))]

lemma foldDigits_append_one (acc : ℕ) (l : List Char) (c : Char) :
    foldDigits acc (l ++ [c]) = (foldDigits acc l) * 10 + digitVal c := by
  simp [foldDigits, List.foldl_append]

lemma foldDigits_natToChars (n : ℕ) :
    ∀ acc : ℕ, foldDigits acc (natToChars n) = acc * tenPow n + n := by
  induction n using Nat.strong_induction_on with
  | _ n ih =>
    intro acc
    rw [natToChars, tenPow]
    split
    · next hlt =>
      simp [foldDigits, digitVal_ofNat n hlt]
    · next hge =>
      rw [foldDigits_append_one, ih (n / 10) (Nat.div_lt_self (by omega) (by omega)) acc,
        digitVal_ofNat (n % 10) (Nat.mod_lt n (by omega)), ← mul_assoc]
      generalize acc * tenPow (n / 10) = A
      omega

lemma dropWhile_digits (l : List Char) (hl : l.all isPyDigit = true) :
    l.dropWhile isPySpace = l := by
  cases l with
  | nil => rfl
  | cons c t =>
    have hc : isPyDigit c = true := by
      simp [List.all_cons] at hl
      exact hl.1
    rw [List.dropWhile_cons]
    simp [isPyDigit_not_space c hc]

lemma pyStrip_digits (cs : List Char) (h : cs.all isPyDigit = true) : pyStrip cs = cs := by
  unfold pyStrip
  rw [dropWhile_digits cs h, dropWhile_digits cs.reverse (by simpa [List.all_reverse] using h),
    List.reverse_reverse]

lemma parseIntChars_digits (cs : List Char) (hne : cs ≠ []) (h : cs.all isPyDigit = true) :
    parseIntChars cs = some (foldDigits 0 cs : ℤ) := by
  have hh : isPyDigit (cs.head hne) = true :=
    (List.all_eq_true.mp h) _ (List.head_mem hne)
  unfold parseIntChars
  rw [dif_neg hne, if_neg (isPyDigit_ne_minus _ hh), if_neg (isPyDigit_ne_plus _ hh),
    if_pos h]

/-- C7.  High-score store round trip: the decimal text `_save_high_score`
of `main1.py` writes for any non-negative integer parses back — after the
strip — to the same value in `_load_high_score`; a missing file or
non-integer content loads as 0. -/
theorem c7_roundtrip :
    (∀ n : ℕ, loadHighScore (some (saveHighScore n)) = (n : ℤ))
    ∧ loadHighScore none = 0
    ∧ loadHighScore (some [Char.ofNat 104, Char.ofNat 105]) = 0 := by
  refine ⟨?_, rfl, rfl⟩
  intro n
  have hall := natToChars_all n
  unfold loadHighScore saveHighScore
  dsimp only
  rw [pyStrip_digits _ hall, parseIntChars_digits _ (natToChars_ne_nil n) hall]
  have := foldDigits_natToChars n 0
  simp [this]

end Flappy
